import Mathlib

/-!
Verification development for the geometry-processing module of
owimetadatabase-preprocessor (geometry/processing.py).

Numeric model: pandas/numpy floats are modelled by the rationals.  The numpy
constant pi is abstracted as an explicit rational parameter (named piv) of the
functions that use it; every claim about those functions is stated for an
arbitrary value of that parameter, so the algebraic relationships it enters are
captured exactly.  Python round(x, 3) is modelled with the mathlib round
function (ties resolved half-up; no claim depends on tie behaviour).  Numeric
database strings (the OD field) are modelled as decimal digit strings.
-/

set_option maxHeartbeats 1000000

/-- Substring test, modelling pandas index.str.contains for plain (regex-free)
patterns such as "tw", "TP" or "grout". -/
def strContains (s pat : String) : Bool :=
  s.toList.tails.any (fun t => pat.toList.isPrefixOf t)

/-- Characters before the first slash, and (when a slash occurs) the remainder
after it: the two components of Python s.split("/", 1). -/
def breakSlash : List Char → List Char × Option (List Char)
  | [] => ([], none)
  | c :: cs =>
    if c = '/' then ([], some cs)
    else
      let p := breakSlash cs
      (c :: p.1, p.2)

/-- Component 0 of d.split("/", 1) in process_structure_geometry. -/
def odBefore (s : String) : String := String.mk (breakSlash s.toList).1

/-- Component 1 of d.split("/", 1) when a slash is present, else component 0:
the value used for the field named Diameter from. -/
def odAfter (s : String) : String :=
  match (breakSlash s.toList).2 with
  | some t => String.mk t
  | none => String.mk (breakSlash s.toList).1

/-- Conversion of a decimal digit string to a rational, modelling float() on
the integer-valued strings stored in the OD field. -/
def strToQ (s : String) : ℚ :=
  ((s.toList.foldl (fun a c => a * 10 + (c.toNat - 48)) 0 : ℕ) : ℚ)

/-- Python round(x, 3), the rounding of the depth columns to millimetres
(nearest value, ties half-up; no claim depends on tie behaviour). -/
def round3 (q : ℚ) : ℚ := ((⌊q * 1000 + 1 / 2⌋ : ℤ) : ℚ) / 1000

/-- One row of a raw subassembly table (tower_sub_assemblies,
tp_sub_assemblies, mp_sub_assemblies): the index label, the OD string, the
optional height (lumped-mass rows have a missing height), and the numeric
columns used by the processing code.  Positions are in millimetres. -/
structure SrcRow where
  label : String
  od : String
  height : Option ℚ
  mass : ℚ
  volume : ℚ
  wall_thickness : ℚ
  x : ℚ
  y : ℚ
  z : ℚ
  mi_x : ℚ
  mi_y : ℚ
  mi_z : ℚ
  description : String
deriving DecidableEq

/-- A row of the table built by set_df_structure: the source columns plus the
two derived depth columns (mLAT, rounded to 3 decimals). -/
structure RawSection where
  src : SrcRow
  depth_from : ℚ
  depth_to : ℚ
deriving DecidableEq

/-- A row of the structural table built by process_structure_geometry, with
the column set listed at the end of that function. -/
structure Can where
  depth_from : ℚ
  depth_to : ℚ
  height : ℚ
  diam_from : ℚ
  diam_to : ℚ
  volume : ℚ
  wall_thickness : ℚ
  youngs : ℚ
  poisson : ℚ
  mass : ℚ
  rho : ℚ
deriving DecidableEq

/-- A row of the RNA table built by process_rna. -/
structure RnaRow where
  x_m : ℚ
  y_m : ℚ
  z_lat : ℚ
  mass_t : ℚ
  ixx : ℚ
  iyy : ℚ
  izz : ℚ
deriving DecidableEq

/-- A row of the lumped-mass table built by process_lumped_masses. -/
structure LMRow where
  x_m : ℚ
  y_m : ℚ
  z_lat : ℚ
  mass_t : ℚ
  description : String
deriving DecidableEq

/-- A row of the distributed-mass table built by
process_distributed_lumped_masses. -/
structure DMRow where
  x_m : ℚ
  y_m : ℚ
  z_lat : ℚ
  height_m : ℚ
  mass_t : ℚ
  volume : ℚ
  description : String
deriving DecidableEq

/-- The Python exceptions raised by the module. -/
inductive PyErr where
  | keyError (missing : List String)
  | indexError
  | typeError (msg : String)
  | valueError (msg : String)
deriving DecidableEq

/-- The mutable state of an OWT object: the three source tables, the scalar
elevations, the derived tables (None before processing) and the three
initialisation flags set by process_structure, assembly_tp_mp and
assembly_full_structure. -/
structure OWTState where
  tower_sub_assemblies : List SrcRow
  tp_sub_assemblies : List SrcRow
  mp_sub_assemblies : List SrcRow
  tower_base : ℚ
  pile_head : ℚ
  water_depth : ℚ
  pile_toe : Option ℚ
  rna : Option (List RnaRow)
  tower : Option (List Can)
  transition_piece : Option (List Can)
  monopile : Option (List Can)
  tw_lumped_mass : Option (List LMRow)
  tp_lumped_mass : Option (List LMRow)
  mp_lumped_mass : Option (List LMRow)
  tp_distributed_mass : Option (List DMRow)
  mp_distributed_mass : Option (List DMRow)
  grout : Option (List DMRow)
  substructure : Option (List Can)
  tp_skirt : Option (List Can)
  full_structure : Option (List Can)
  init_proc : Bool
  init_spec_part : Bool
  init_spec_full : Bool
deriving DecidableEq

/-- Height of a source row with the pandas missing-value arithmetic used by
df.height.sum(): a missing height contributes 0 to the sum.  (Rows selected as
structural sections always carry a height; the claims that need this state it
as a hypothesis.) -/
def hQ (r : SrcRow) : ℚ := r.height.getD 0

/-- The two depth columns of set_df_structure for one row: depth-to is the
anchor elevation plus the z offset in metres, depth-from adds the height in
metres, and both are rounded to 3 decimals afterwards (the df.round call). -/
def mkRaw (anchor : ℚ) (r : SrcRow) : RawSection :=
  { src := r
    depth_from := round3 (anchor + r.z / 1000 + hQ r / 1000)
    depth_to := round3 (anchor + r.z / 1000) }

/-- Row selection of the tw branch of set_df_structure. -/
def selTW (st : OWTState) : List SrcRow :=
  st.tower_sub_assemblies.filter (fun r => strContains r.label "tw")

/-- Row selection of the tp branch of set_df_structure: grout rows are
excluded. -/
def selTP (st : OWTState) : List SrcRow :=
  st.tp_sub_assemblies.filter
    (fun r => strContains r.label "tp" && !strContains r.label "grout")

/-- Row selection of the mp branch of set_df_structure. -/
def selMP (st : OWTState) : List SrcRow :=
  st.mp_sub_assemblies.filter (fun r => strContains r.label "mp")

/-- The transition-piece bottom of the tp branch of set_df_structure:
tower_base - df.height.sum() * 1e-3 over the selected rows. -/
def tpAnchor (st : OWTState) : ℚ :=
  st.tower_base - ((selTP st).map hQ).sum / 1000

/-- The unrounded monopile toe of the mp branch of set_df_structure:
pile_head - df.height.sum() * 1e-3 over the selected rows. -/
def mpToe (st : OWTState) : ℚ :=
  st.pile_head - ((selMP st).map hQ).sum / 1000

/-- OWT.set_df_structure.  The mp branch additionally stores the rounded toe
in the pile_toe attribute; an unknown index raises ValueError (None here). -/
def set_df_structure (st : OWTState) (idx : String) :
    Option (List RawSection × OWTState) :=
  if idx = "tw" then
    some ((selTW st).map (mkRaw st.tower_base), st)
  else if idx = "tp" then
    some ((selTP st).map (mkRaw (tpAnchor st)), st)
  else if idx = "mp" then
    some ((selMP st).map (mkRaw (mpToe st)),
      { st with pile_toe := some (round3 (mpToe st)) })
  else
    none

/-- The per-row computation of process_structure_geometry: the OD string is
split at its first slash, the component before the slash becomes the column
named Diameter to and the component after it (or the whole string when there
is no slash) becomes the column named Diameter from, both converted from mm
to m; rho is raw mass over raw height (kg/mm, printed as t/m), mass and
height are converted to t and m, and the fixed material defaults are
attached. -/
def toCan (r : RawSection) : Can :=
  { depth_from := r.depth_from
    depth_to := r.depth_to
    height := hQ r.src / 1000
    diam_from := strToQ (odAfter r.src.od) / 1000
    diam_to := strToQ (odBefore r.src.od) / 1000
    volume := r.src.volume
    wall_thickness := r.src.wall_thickness
    youngs := 210
    poisson := 3 / 10
    mass := r.src.mass / 1000
    rho := r.src.mass / hQ r.src }

/-- OWT.process_structure_geometry: set_df_structure followed by the column
computations of toCan. -/
def process_structure_geometry (st : OWTState) (idx : String) :
    Option (List Can × OWTState) :=
  (set_df_structure st idx).map (fun p => (p.1.map toCan, p.2))

/-- OWT.process_rna: the RNA rows of the tower table, positions and inertia
converted, Z anchored at the tower base. -/
def process_rna (st : OWTState) : List RnaRow :=
  (st.tower_sub_assemblies.filter (fun r => strContains r.label "RNA")).map
    (fun r =>
      { x_m := r.x / 1000
        y_m := r.y / 1000
        z_lat := st.tower_base + r.z / 1000
        mass_t := r.mass / 1000
        ixx := r.mi_x / 1000
        iyy := r.mi_y / 1000
        izz := r.mi_z / 1000 })

/-- A dataframe of the lumped-mass pipeline: the current column list (needed
because the final column projection of process_lumped_masses can fail with a
KeyError) together with the rows, each row being the selected source row
paired with its computed Z coordinate in mLAT. -/
structure LMDF where
  cols : List String
  rows : List (SrcRow × ℚ)
deriving DecidableEq

/-- The source columns selected by set_df_appurtenances: the description
column (lower case) is added only when add_descr is set. -/
def lmBaseCols (add_descr : Bool) : List String :=
  ["mass", "x", "y", "z"] ++ (if add_descr then ["description"] else [])

/-- OWT.set_df_appurtenances.  The TW branch selects every row whose label
contains TW, with no height filter; the TP and MP branches additionally select
the height column, coerce it to numeric and keep only rows with a missing
height.  Z is anchored at the tower base (TW), at tower_base minus the z
offset of the first row of the raw tp table (TP; IndexError when that table is
empty), or at the stored pile toe (MP; TypeError when pile_toe is still None).
An unknown index raises ValueError. -/
def set_df_appurtenances (st : OWTState) (idx : String) (add_descr : Bool) :
    Except PyErr LMDF :=
  if idx = "TW" then
    .ok { cols := lmBaseCols add_descr ++ ["Z [mLAT]"]
          rows := (st.tower_sub_assemblies.filter (fun r => strContains r.label "TW")).map
            (fun r => (r, st.tower_base + r.z / 1000)) }
  else if idx = "TP" then
    match st.tp_sub_assemblies with
    | [] => .error .indexError
    | r0 :: _ =>
      .ok { cols := lmBaseCols add_descr ++ ["height", "Z [mLAT]"]
            rows := ((st.tp_sub_assemblies.filter (fun r => strContains r.label "TP")).filter
                (fun r => r.height.isNone)).map
              (fun r => (r, st.tower_base - r0.z / 1000 + r.z / 1000)) }
  else if idx = "MP" then
    match st.pile_toe with
    | none => .error (.typeError "unsupported operand: pile_toe is None")
    | some toe =>
      .ok { cols := lmBaseCols add_descr ++ ["height", "Z [mLAT]"]
            rows := ((st.mp_sub_assemblies.filter (fun r => strContains r.label "MP")).filter
                (fun r => r.height.isNone)).map (fun r => (r, toe + r.z / 1000)) }
  else
    .error (.valueError "Unknown index.")

/-- The pandas column projection df[cols]: succeeds when every requested
column is available, otherwise raises a KeyError naming the missing columns. -/
def projectCols {α : Type} (avail req : List String) (x : α) : Except PyErr α :=
  if req.all (fun c => avail.contains c) then .ok x
  else .error (.keyError (req.filter (fun c => !avail.contains c)))

/-- The columns requested by the final projection of process_lumped_masses:
with add_descr it requests the capitalised name Description. -/
def lmReqCols (add_descr : Bool) : List String :=
  ["X [m]", "Y [m]", "Z [mLAT]", "Mass [t]"] ++ (if add_descr then ["Description"] else [])

/-- OWT.process_lumped_masses: converts mass to tonnes and x, y to metres,
then projects the final columns (which fails whenever add_descr is set,
because the selected column is the lower-case description). -/
def process_lumped_masses (st : OWTState) (idx : String) (add_descr : Bool) :
    Except PyErr (List LMRow × List String) :=
  match set_df_appurtenances st idx add_descr with
  | .error e => .error e
  | .ok df =>
    projectCols (df.cols ++ ["Mass [t]", "X [m]", "Y [m]"]) (lmReqCols add_descr)
      (df.rows.map (fun p =>
        { x_m := p.1.x / 1000
          y_m := p.1.y / 1000
          z_lat := p.2
          mass_t := p.1.mass / 1000
          description := p.1.description }), lmReqCols add_descr)

/-- The source columns selected by set_df_distributed_appurtenances. -/
def dmSrcCols : List String :=
  ["mass", "x", "y", "z", "height", "volume", "description"]

/-- OWT.set_df_distributed_appurtenances: like the lumped selection but
keeping only rows with a present height; valid categories are TP, MP and
grout (grout rows live in the tp table). -/
def set_df_distributed_appurtenances (st : OWTState) (idx : String) :
    Except PyErr (List String × List (SrcRow × ℚ)) :=
  if idx = "TP" then
    match st.tp_sub_assemblies with
    | [] => .error .indexError
    | r0 :: _ =>
      .ok (dmSrcCols ++ ["Z [mLAT]"],
        ((st.tp_sub_assemblies.filter (fun r => strContains r.label "TP")).filter
            (fun r => r.height.isSome)).map
          (fun r => (r, st.tower_base - r0.z / 1000 + r.z / 1000)))
  else if idx = "MP" then
    match st.pile_toe with
    | none => .error (.typeError "unsupported operand: pile_toe is None")
    | some toe =>
      .ok (dmSrcCols ++ ["Z [mLAT]"],
        ((st.mp_sub_assemblies.filter (fun r => strContains r.label "MP")).filter
            (fun r => r.height.isSome)).map (fun r => (r, toe + r.z / 1000)))
  else if idx = "grout" then
    match st.tp_sub_assemblies with
    | [] => .error .indexError
    | r0 :: _ =>
      .ok (dmSrcCols ++ ["Z [mLAT]"],
        ((st.tp_sub_assemblies.filter (fun r => strContains r.label "grout")).filter
            (fun r => r.height.isSome)).map
          (fun r => (r, st.tower_base - r0.z / 1000 + r.z / 1000)))
  else
    .error (.valueError
      "Unknown index or non distributed lumped masses located outside the transition piece.")

/-- The columns requested by the final projection of
process_distributed_lumped_masses (description stays lower case here). -/
def dmReqCols : List String :=
  ["X [m]", "Y [m]", "Z [mLAT]", "Height [m]", "Mass [t]", "Volume [m3]", "description"]

/-- OWT.process_distributed_lumped_masses: unit conversions, the rename of
volume to Volume [m3], and the final column projection (which succeeds). -/
def process_distributed_lumped_masses (st : OWTState) (idx : String) :
    Except PyErr (List DMRow) :=
  match set_df_distributed_appurtenances st idx with
  | .error e => .error e
  | .ok df =>
    projectCols
      ((df.1.map (fun c => if c = "volume" then "Volume [m3]" else c)) ++
        ["Mass [t]", "X [m]", "Y [m]", "Height [m]"])
      dmReqCols
      (df.2.map (fun p =>
        { x_m := p.1.x / 1000
          y_m := p.1.y / 1000
          z_lat := p.2
          height_m := hQ p.1 / 1000
          mass_t := p.1.mass / 1000
          volume := p.1.volume
          description := p.1.description }))

/-- Sequencing of the in-place mutations of process_structure: a raised
exception aborts the remaining steps and leaves the state reached so far. -/
def stepE (prev : OWTState × Option PyErr) (f : OWTState → Except PyErr OWTState) :
    OWTState × Option PyErr :=
  match prev with
  | (st, some e) => (st, some e)
  | (st, none) =>
    match f st with
    | .ok st2 => (st2, none)
    | .error e => (st, some e)

/-- Folding a list of processing steps from an initial state. -/
def runSteps (st : OWTState) (steps : List (OWTState → Except PyErr OWTState)) :
    OWTState × Option PyErr :=
  steps.foldl stepE (st, none)

/-- A structural-geometry step of process_structure. -/
def geomStep (idx : String) (setter : OWTState → List Can → OWTState)
    (st : OWTState) : Except PyErr OWTState :=
  match process_structure_geometry st idx with
  | some p => .ok (setter p.2 p.1)
  | none => .error (.valueError "Unknown index.")

/-- A lumped-mass step of process_structure (add_descr defaults to false). -/
def lumpStep (idx : String) (setter : OWTState → List LMRow → OWTState)
    (st : OWTState) : Except PyErr OWTState :=
  match process_lumped_masses st idx false with
  | .ok p => .ok (setter st p.1)
  | .error e => .error e

/-- A distributed-mass step of process_structure. -/
def distStep (idx : String) (setter : OWTState → List DMRow → OWTState)
    (st : OWTState) : Except PyErr OWTState :=
  match process_distributed_lumped_masses st idx with
  | .ok rows => .ok (setter st rows)
  | .error e => .error e

/-- OWT.process_structure: sets the _init_proc flag and runs the steps of the
requested option in source order; an option other than the four listed ones
does nothing beyond setting the flag (the Python if-chain has no else). -/
def process_structure (st : OWTState) (opt : String) : OWTState × Option PyErr :=
  let st0 := { st with init_proc := true }
  if opt = "full" then
    runSteps st0
      [fun s => .ok { s with rna := some (process_rna s) },
       geomStep "tw" (fun s c => { s with tower := some c }),
       geomStep "tp" (fun s c => { s with transition_piece := some c }),
       geomStep "mp" (fun s c => { s with monopile := some c }),
       lumpStep "TW" (fun s c => { s with tw_lumped_mass := some c }),
       lumpStep "TP" (fun s c => { s with tp_lumped_mass := some c }),
       lumpStep "MP" (fun s c => { s with mp_lumped_mass := some c }),
       distStep "TP" (fun s c => { s with tp_distributed_mass := some c }),
       distStep "MP" (fun s c => { s with mp_distributed_mass := some c }),
       distStep "grout" (fun s c => { s with grout := some c })]
  else if opt = "tower" then
    runSteps st0
      [fun s => .ok { s with rna := some (process_rna s) },
       geomStep "tw" (fun s c => { s with tower := some c }),
       lumpStep "TW" (fun s c => { s with tw_lumped_mass := some c })]
  else if opt = "TP" then
    runSteps st0
      [geomStep "tp" (fun s c => { s with transition_piece := some c }),
       lumpStep "TP" (fun s c => { s with tp_lumped_mass := some c }),
       distStep "TP" (fun s c => { s with tp_distributed_mass := some c }),
       distStep "grout" (fun s c => { s with grout := some c })]
  else if opt = "monopile" then
    runSteps st0
      [geomStep "mp" (fun s c => { s with monopile := some c }),
       lumpStep "MP" (fun s c => { s with mp_lumped_mass := some c }),
       distStep "MP" (fun s c => { s with mp_distributed_mass := some c })]
  else
    (st0, none)

/-- OWT.can_adjust_properties fused with the assignment of its result in
can_modification: height, volume (difference of the outer and inner conical
frustum volumes), mass (recomputed volume times the original density
Mass/Volume) and linear density are recomputed from the current depths and
diameters of the row; the remaining fields are unchanged.  The numpy constant
pi enters as the explicit parameter piv. -/
def can_adjust_properties (piv : ℚ) (row : Can) : Can :=
  let density := row.mass / row.volume
  let height := row.depth_from - row.depth_to
  let r1 := row.diam_from / 2
  let r2 := row.diam_to / 2
  let volume_out := 1 / 3 * piv * (r1 ^ 2 + r1 * r2 + r2 ^ 2) * height
  let w := row.wall_thickness / 1000
  let r1i := r1 - w
  let r2i := r2 - w
  let volume_in := 1 / 3 * piv * (r1i ^ 2 + r1i * r2i + r2i ^ 2) * height
  let volume := volume_out - volume_in
  let mass := volume * density
  { row with height := height, volume := volume, mass := mass, rho := mass / height }

/-- numpy.interp for a two-point coordinate sequence, exactly as documented
and implemented: for x above the last coordinate the last value is returned,
for x below the first coordinate the first value is returned (no check that
the coordinates are increasing), and only otherwise is the linear
interpolation formula applied. -/
def npInterp2 (x x0 x1 y0 y1 : ℚ) : ℚ :=
  if x1 < x then y1
  else if x < x0 then y0
  else if x1 ≤ x then y1
  else if x = x0 then y0
  else y0 + (y1 - y0) / (x1 - x0) * (x - x0)

/-- The per-row body of can_modification: first the boundary depth is
overwritten with the altitude, then the elevation pair is read from the
already modified row while the diameter pair is still the original one, the
boundary diameter is set to the numpy.interp result, and the derived
quantities are recomputed by can_adjust_properties. -/
def modifyCan (piv altitude : ℚ) (isBottom : Bool) (r : Can) : Can :=
  let r1 := if isBottom then { r with depth_to := altitude } else { r with depth_from := altitude }
  let d := npInterp2 altitude r1.depth_from r1.depth_to r.diam_from r.diam_to
  let r2 := if isBottom then { r1 with diam_to := d } else { r1 with diam_from := d }
  can_adjust_properties piv r2

/-- OWT.can_modification: position bottom edits the last row of the table,
any other position edits the first row (the Python else branch); an empty
table raises IndexError (None here). -/
def can_modification (piv : ℚ) (df : List Can) (altitude : ℚ) (pos : String) :
    Option (List Can) :=
  if pos = "bottom" then
    match df with
    | [] => none
    | a :: l =>
      some ((a :: l).dropLast ++
        [modifyCan piv altitude true ((a :: l).getLast (List.cons_ne_nil a l))])
  else
    match df with
    | [] => none
    | a :: l => some (modifyCan piv altitude false a :: l)

/-- OWT.assembly_tp_mp.  The _init_spec_part flag is set before the
prerequisite check.  The kept transition-piece portion is the set of rows with
depth-from strictly above the pile head; the bolted test compares the
depth-to of the FIRST row of that portion with the pile head; the skirt is
the set of rows with depth-to strictly below the pile head and is always
passed through can_modification with position top. -/
def assembly_tp_mp (piv : ℚ) (st : OWTState) : OWTState × Option PyErr :=
  let st0 := { st with init_spec_part := true }
  match st.transition_piece, st.monopile with
  | some tp, some mp =>
    let mp_head := st.pile_head
    let df := tp.filter (fun c => mp_head < c.depth_from)
    match df with
    | [] => (st0, some .indexError)
    | c0 :: rest =>
      let st1 :=
        if c0.depth_to ≠ mp_head then
          match can_modification piv (c0 :: rest) mp_head "bottom" with
          | some tp1 => { st0 with substructure := some (tp1 ++ mp) }
          | none => st0
        else
          { st0 with substructure := some ((c0 :: rest) ++ mp) }
      match can_modification piv (tp.filter (fun c => c.depth_to < mp_head)) mp_head "top" with
      | some sk => ({ st1 with tp_skirt := some sk }, none)
      | none => (st1, some .indexError)
  | _, _ => (st0, some (.typeError "TP or MP items need to be processed before!"))

/-- OWT.assembly_full_structure: tower concatenated with the substructure;
the _init_spec_full flag is set before the prerequisite checks. -/
def assembly_full_structure (st : OWTState) : OWTState × Option PyErr :=
  let st0 := { st with init_spec_full := true }
  match st.substructure with
  | some sub =>
    match st.tower with
    | some tw => ({ st0 with full_structure := some (tw ++ sub) }, none)
    | none => (st0, some (.typeError "Tower needs to be processed before!"))
  | none => (st0, some (.typeError "Substructure needs to be processed before!"))

/-- OWT.extend_dfs: three process_lumped_masses calls with add_descr set
(whose results are discarded), then the assembly calls.  The writes of the
constant Subassembly label column that the Python code performs between the
two stages are not represented in the row model; they are unreachable because
the first process_lumped_masses call always raises (claim C4). -/
def extend_dfs (piv : ℚ) (st : OWTState) : OWTState × Option PyErr :=
  match process_lumped_masses st "TW" true with
  | .error e => (st, some e)
  | .ok _ =>
    match process_lumped_masses st "TP" true with
    | .error e => (st, some e)
    | .ok _ =>
      match process_lumped_masses st "MP" true with
      | .error e => (st, some e)
      | .ok _ =>
        match assembly_tp_mp piv st with
        | (st1, some e) => (st1, some e)
        | (st1, none) => assembly_full_structure st1

/-- The per-turbine body of OWTs.process_structures:
owt.process_structure() followed by owt.extend_dfs(). -/
def owt_full_pipeline (piv : ℚ) (st : OWTState) : OWTState × Option PyErr :=
  match process_structure st "full" with
  | (st1, some e) => (st1, some e)
  | (st1, none) => extend_dfs piv st1

/-- The state of an OWTs object: the member OWT objects, the completed flag
_init, and the per-turbine pile-toe aggregation list (the other aggregation
attributes behave identically and are omitted; the aggregation code is
unreachable because extend_dfs always raises). -/
structure OWTsState where
  owts : List OWTState
  pile_toe_agg : List (Option ℚ)
  init : Bool
deriving DecidableEq

/-- The loop of OWTs.process_structures over the member turbines: each OWT is
processed in place; an exception aborts the loop, keeping the states already
updated and the aggregation entries appended by completed iterations. -/
def owts_loop (piv : ℚ) : List OWTState → List OWTState × List (Option ℚ) × Option PyErr
  | [] => ([], [], none)
  | o :: rest =>
    match owt_full_pipeline piv o with
    | (o1, some e) => (o1 :: rest, [], some e)
    | (o1, none) =>
      let p := owts_loop piv rest
      (o1 :: p.1, o1.pile_toe :: p.2.1, p.2.2)

/-- OWTs.process_structures: returns immediately when the completed flag is
already set; otherwise sets the flag first and runs the per-turbine loop.
The post-loop aggregation (dict conversion and concatenations) is unreachable
for a nonempty turbine list because extend_dfs always raises. -/
def process_structures (piv : ℚ) (sts : OWTsState) : OWTsState × Option PyErr :=
  if sts.init then (sts, none)
  else
    let p := owts_loop piv sts.owts
    ({ sts with init := true, owts := p.1, pile_toe_agg := sts.pile_toe_agg ++ p.2.1 },
      p.2.2)

/-- The module-level ATTR_PROC list. -/
def ATTR_PROC : List String :=
  ["pile_toe", "rna", "tower", "transition_piece", "monopile", "tw_lumped_mass",
   "tp_lumped_mass", "mp_lumped_mass", "tp_distributed_mass", "mp_distributed_mass", "grout"]

/-- The module-level ATTR_SPEC list. -/
def ATTR_SPEC : List String := ["full_structure", "tp_skirt", "substructure"]

/-- The module-level ATTR_FULL list. -/
def ATTR_FULL : List String :=
  ["all_tubular_structures", "all_distributed_mass", "all_lumped_mass", "all_turbines"]

/-- The state visible to OWT.__getattribute__: the three processing flags and
an abstract attribute store (the interception logic never inspects values). -/
structure AttrState (V : Type) where
  vals : String → V
  init_proc : Bool
  init_spec_part : Bool
  init_spec_full : Bool

/-- OWT.__getattribute__: the emitted warnings (each recorded by the
processing call named in its message) and the attribute value, which is
always returned unchanged; nothing is raised. -/
def owt_getattribute {V : Type} (st : AttrState V) (name : String) :
    List String × V :=
  (if name ∈ ATTR_PROC ∧ st.init_proc = false then ["process_structure"]
   else if name ∈ ATTR_SPEC ∧ st.init_spec_part = false then ["assembly_tp_mp"]
   else if name ∈ ATTR_SPEC ∧ st.init_spec_full = false then ["assembly_full_structure"]
   else [], st.vals name)

/-- The state visible to OWTs.__getattribute__. -/
structure OWTsAttrState (V : Type) where
  vals : String → V
  init : Bool

/-- OWTs.__getattribute__: one warning naming process_structures when a
derived attribute is read before processing; the value is returned
unchanged. -/
def owts_getattribute {V : Type} (st : OWTsAttrState V) (name : String) :
    List String × V :=
  (if name ∈ ATTR_PROC ++ ATTR_SPEC ++ ATTR_FULL ∧ st.init = false
   then ["process_structures"] else [], st.vals name)

/-- The flag of an OWT processing call: true when that call has run. -/
def owtFlag {V : Type} (st : AttrState V) (call : String) : Bool :=
  if call = "process_structure" then st.init_proc
  else if call = "assembly_tp_mp" then st.init_spec_part
  else if call = "assembly_full_structure" then st.init_spec_full
  else true

/-- The processing call that populates a derived OWT attribute. -/
def owtCorrCall (name : String) : String :=
  if name = "full_structure" then "assembly_full_structure"
  else if name ∈ ATTR_SPEC then "assembly_tp_mp"
  else "process_structure"

/-- Python truthiness of an optional float argument: None and 0.0 are falsy. -/
def truthy : Option ℚ → Bool
  | none => false
  | some q => decide (q ≠ 0)

/-- The elevation initialisation of OWT.__init__: when either supplied value
is falsy, BOTH elevations are derived from the subassemblies (the absolute
bottom of the TW subassembly and the absolute top of the MP subassembly,
supplied here as the parameters tw_bottom and mp_top since the SubAssembly
class is outside the analysed module); the supplied values are used only when
both are truthy. -/
def owt_init_elev (tower_base pile_head : Option ℚ) (tw_bottom mp_top : ℚ) :
    ℚ × ℚ :=
  if truthy tower_base = false ∨ truthy pile_head = false then (tw_bottom, mp_top)
  else (tower_base.getD 0, pile_head.getD 0)

/-- The table invariants of claim C1 in their amended form, for a table with
anchor elevation anchor: depth-from is at least depth-to on every row with a
nonnegative height; when the source z offsets are stacked top-down (each row
starts where the row below it ends) adjacent rows share their boundary
elevation; and a row with z offset 0 sits exactly at the (rounded) anchor. -/
def sectionTableOk (out : List RawSection) (anchor : ℚ) : Prop :=
  (∀ r ∈ out, 0 ≤ hQ r.src → r.depth_to ≤ r.depth_from) ∧
  (List.Chain' (fun a b => a.src.z = b.src.z + hQ b.src) out →
    List.Chain' (fun a b => a.depth_to = b.depth_from) out) ∧
  (∀ r ∈ out, r.src.z = 0 → r.depth_to = round3 anchor)

/-- A neutral source row used to build the concrete tables below. -/
def baseRow : SrcRow :=
  { label := "", od := "1000", height := none, mass := 0, volume := 0
    wall_thickness := 0, x := 0, y := 0, z := 0, mi_x := 0, mi_y := 0, mi_z := 0
    description := "" }

/-- A neutral OWT state used to build the concrete states below. -/
def baseSt : OWTState :=
  { tower_sub_assemblies := [], tp_sub_assemblies := [], mp_sub_assemblies := []
    tower_base := 20, pile_head := 4, water_depth := 30
    pile_toe := none, rna := none, tower := none, transition_piece := none
    monopile := none, tw_lumped_mass := none, tp_lumped_mass := none
    mp_lumped_mass := none, tp_distributed_mass := none, mp_distributed_mass := none
    grout := none, substructure := none, tp_skirt := none, full_structure := none
    init_proc := false, init_spec_part := false, init_spec_full := false }

/-- A neutral structural section used to build the concrete tables below. -/
def baseCan : Can :=
  { depth_from := 0, depth_to := 0, height := 0, diam_from := 0, diam_to := 0
    volume := 1, wall_thickness := 0, youngs := 210, poisson := 3 / 10
    mass := 0, rho := 0 }

/-- C1 counterexample data: one tower can of height 1000 mm at offset 0. -/
def c1BadRow : SrcRow := { baseRow with label := "tw1", height := some 1000 }

/-- C1 counterexample state. -/
def c1BadSt : OWTState := { baseSt with tower_sub_assemblies := [c1BadRow] }

/-- C1 witness data: the upper of two stacked tower cans (top-down order). -/
def c1wA : SrcRow := { baseRow with label := "twa", z := 2000, height := some 1000 }

/-- C1 witness data: the lower of two stacked tower cans. -/
def c1wB : SrcRow := { baseRow with label := "twb", z := 0, height := some 2000 }

/-- C1 witness state. -/
def c1wSt : OWTState := { baseSt with tower_sub_assemblies := [c1wA, c1wB] }

/-- The tower table built from the C1 witness state. -/
def c1wOut : List RawSection := (selTW c1wSt).map (mkRaw c1wSt.tower_base)

/-- C2 data: a transition-piece can straddling the monopile head at 4 mLAT,
with distinct end diameters. -/
def c2tp : Can :=
  { baseCan with
    depth_from := 10, depth_to := 0, diam_from := 2, diam_to := 1,
    mass := 10, volume := 5, wall_thickness := 100 }

/-- C2 data: the monopile can below the head. -/
def c2mp : Can :=
  { baseCan with
    depth_from := 4, depth_to := -10, diam_from := 5, diam_to := 5,
    mass := 8, volume := 4, wall_thickness := 200 }

/-- C2 state: transition piece and monopile processed, pile head at 4 mLAT. -/
def c2St : OWTState :=
  { baseSt with transition_piece := some [c2tp], monopile := some [c2mp] }

/-- C3 witness data: one monopile can of height 5000 mm. -/
def c3Row : SrcRow := { baseRow with label := "mp1", height := some 5000 }

/-- C3 witness state. -/
def c3St : OWTState := { baseSt with mp_sub_assemblies := [c3Row], pile_head := -1 }

/-- C4 witness state: a nonempty raw transition-piece table. -/
def c4St : OWTState := { baseSt with tp_sub_assemblies := [baseRow] }

/-- C4 witness state with a stored pile toe. -/
def c4StMP : OWTState := { baseSt with pile_toe := some 0 }

/-- C4 witness fleet state. -/
def c4Sts : OWTsState := { owts := [c4St], pile_toe_agg := [], init := false }

/-- C5 counterexample data: the top kept transition-piece can. -/
def c5r1 : Can :=
  { baseCan with
    depth_from := 12, depth_to := 8, diam_from := 3, diam_to := 3,
    mass := 6, volume := 3, wall_thickness := 500 }

/-- C5 counterexample data: the bottom kept can, bolted exactly at the pile
head (depth-to 4). -/
def c5r2 : Can :=
  { baseCan with
    depth_from := 8, depth_to := 4, diam_from := 2, diam_to := 1,
    mass := 6, volume := 3, wall_thickness := 500 }

/-- C5 counterexample data: the skirt can below the pile head. -/
def c5r3 : Can :=
  { baseCan with
    depth_from := 4, depth_to := 0, diam_from := 1, diam_to := 1,
    mass := 2, volume := 1, wall_thickness := 100 }

/-- C5 counterexample data: the monopile can. -/
def c5m1 : Can :=
  { baseCan with
    depth_from := 4, depth_to := -10, diam_from := 5, diam_to := 5,
    mass := 8, volume := 4, wall_thickness := 200 }

/-- C5 counterexample state. -/
def c5St : OWTState :=
  { baseSt with transition_piece := some [c5r1, c5r2, c5r3], monopile := some [c5m1] }

/-- C5 witness data: a single kept can bolted at the pile head. -/
def c5w1 : Can :=
  { baseCan with
    depth_from := 8, depth_to := 4, diam_from := 2, diam_to := 1,
    mass := 6, volume := 3, wall_thickness := 500 }

/-- C5 witness state (single-row kept portion, bolted connection). -/
def c5wSt : OWTState :=
  { baseSt with transition_piece := some [c5w1, c5r3], monopile := some [c5m1] }

/-- C6 counterexample data: a tower can with the OD string 100/200. -/
def c6Row : SrcRow := { baseRow with label := "tw1", od := "100/200", height := some 1000 }

/-- C6 counterexample state. -/
def c6St : OWTState := { baseSt with tower_sub_assemblies := [c6Row] }

/-- C7 counterexample data: a TW-labelled row with a PRESENT height. -/
def c7Row : SrcRow := { baseRow with label := "TWbox", height := some 500 }

/-- C7 counterexample state. -/
def c7St : OWTState := { baseSt with tower_sub_assemblies := [c7Row] }

/-- C8 witness attribute state: nothing processed yet. -/
def c8AttrSt : AttrState Bool :=
  { vals := fun _ => true, init_proc := false, init_spec_part := false
    init_spec_full := false }

/-- C8 witness fleet attribute state. -/
def c8AttrSts : OWTsAttrState Bool := { vals := fun _ => true, init := false }

/-- C9 witness fleet state: the completed flag is already set. -/
def c9Sts : OWTsState := { owts := [c4St], pile_toe_agg := [], init := true }

example : strContains "tw21" "tw" = true := by decide
example : strContains "TW_L1" "tw" = false := by decide
example : odBefore "5000/5500" = "5000" := by decide
example : odAfter "5000/5500" = "5500" := by decide
example : odAfter "5000" = "5000" := by decide
/-- Values with at most 3 decimals are fixed by round3. -/
theorem round3_fix (q : ℚ) (n : ℤ) (h : q * 1000 = (n : ℚ)) : round3 q = q := by
  unfold round3
  have h0 : (⌊(1 : ℚ) / 2⌋ : ℤ) = 0 := by
    rw [Int.floor_eq_iff]
    norm_num
  rw [h, add_comm, Int.floor_add_int, h0, zero_add,
    div_eq_iff (by norm_num : (1000 : ℚ) ≠ 0)]
  exact h.symm

/-- Monotonicity of round3. -/
theorem round3_mono {a b : ℚ} (h : a ≤ b) : round3 a ≤ round3 b := by
  unfold round3
  have hf : (⌊a * 1000 + 1 / 2⌋ : ℤ) ≤ ⌊b * 1000 + 1 / 2⌋ :=
    Int.floor_le_floor (by linarith)
  have hf2 : ((⌊a * 1000 + 1 / 2⌋ : ℤ) : ℚ) ≤ ((⌊b * 1000 + 1 / 2⌋ : ℤ) : ℚ) := by
    exact_mod_cast hf
  linarith

example : strToQ "5500" = 5500 := by
  have h : (("5500".toList.foldl (fun a c => a * 10 + (c.toNat - 48)) 0 : ℕ)) = 5500 := by
    decide
  unfold strToQ
  rw [h]
  norm_num
example : round3 (20 + 1 / 3) = 20333 / 1000 := by
  unfold round3
  rw [show ((20 + 1 / 3 : ℚ) * 1000 + 1 / 2) = ((20333 : ℤ) : ℚ) + 5 / 6 by norm_num]
  rw [add_comm, Int.floor_add_int,
    show (⌊(5 : ℚ) / 6⌋ : ℤ) = 0 by rw [Int.floor_eq_iff]; norm_num]
  norm_num

/-- Any table built by mkRaw from an anchor satisfies the amended C1
invariants. -/
theorem sectionTableOk_mkRaw (anchor : ℚ) (sel : List SrcRow) :
    sectionTableOk (sel.map (mkRaw anchor)) anchor := by
  refine ⟨?_, ?_, ?_⟩
  · intro r hr hh
    obtain ⟨s, hs, rfl⟩ := List.mem_map.1 hr
    simp only [mkRaw] at hh ⊢
    exact round3_mono (by linarith)
  · intro hch
    rw [List.chain'_map] at hch ⊢
    refine hch.imp ?_
    intro a b hab
    simp only [mkRaw] at hab ⊢
    exact congrArg round3 (by rw [hab]; ring)
  · intro r hr hz
    obtain ⟨s, hs, rfl⟩ := List.mem_map.1 hr
    simp only [mkRaw] at hz ⊢
    rw [hz]
    norm_num

/-- C1 (amended).  For each of the categories tw, tp and mp, set_df_structure
returns the selected rows annotated with their depth columns (anchored at the
tower base, the derived transition-piece bottom, and the monopile toe
respectively; the mp branch also stores the rounded toe in pile_toe), and the
resulting table satisfies: depth-FROM is at least depth-TO on every row of
nonnegative height (the direction claimed in C1 is reversed), adjacent rows
share their boundary elevation whenever the source z offsets are stacked
top-down, and any row with z offset 0 sits at the rounded anchor
elevation. -/
theorem claim_c1_amended (st : OWTState) :
    (set_df_structure st "tw" = some ((selTW st).map (mkRaw st.tower_base), st) ∧
      sectionTableOk ((selTW st).map (mkRaw st.tower_base)) st.tower_base) ∧
    (set_df_structure st "tp" = some ((selTP st).map (mkRaw (tpAnchor st)), st) ∧
      sectionTableOk ((selTP st).map (mkRaw (tpAnchor st))) (tpAnchor st)) ∧
    (set_df_structure st "mp" =
        some ((selMP st).map (mkRaw (mpToe st)),
          { st with pile_toe := some (round3 (mpToe st)) }) ∧
      sectionTableOk ((selMP st).map (mkRaw (mpToe st))) (mpToe st)) :=
  ⟨⟨rfl, sectionTableOk_mkRaw _ _⟩, ⟨rfl, sectionTableOk_mkRaw _ _⟩,
    ⟨rfl, sectionTableOk_mkRaw _ _⟩⟩

/-- C1 (counterexample).  On a one-row tower table with height 1000 mm the
built row has depth-from 21 and depth-to 20, so the claimed per-row inequality
depth-to greater-or-equal depth-from is false. -/
theorem claim_c1_counterexample :
    set_df_structure c1BadSt "tw" = some ([mkRaw 20 c1BadRow], c1BadSt) ∧
    (mkRaw 20 c1BadRow).depth_from = 21 ∧
    (mkRaw 20 c1BadRow).depth_to = 20 ∧
    ¬((20 : ℚ) ≥ 21) := by
  refine ⟨rfl, ?_, ?_, by norm_num⟩
  · show round3 (20 + c1BadRow.z / 1000 + hQ c1BadRow / 1000) = 21
    rw [show (20 + c1BadRow.z / 1000 + hQ c1BadRow / 1000 : ℚ) = 21 by
      norm_num [c1BadRow, baseRow, hQ]]
    rw [round3_fix 21 21000 (by norm_num)]
  · show round3 (20 + c1BadRow.z / 1000) = 20
    rw [show (20 + c1BadRow.z / 1000 : ℚ) = 20 by norm_num [c1BadRow, baseRow]]
    rw [round3_fix 20 20000 (by norm_num)]

/-- C1 (witness): the amended theorem applied to a concrete two-row stacked
tower table; the stacking hypothesis is discharged by computation and the
contiguity and per-row inequality conclusions are stated for that table. -/
theorem claim_c1_witness :
    List.Chain' (fun a b => a.src.z = b.src.z + hQ b.src) c1wOut ∧
    List.Chain' (fun a b => a.depth_to = b.depth_from) c1wOut ∧
    0 ≤ hQ (mkRaw 20 c1wA).src ∧
    (mkRaw 20 c1wA).depth_to ≤ (mkRaw 20 c1wA).depth_from := by
  have hout : c1wOut = [mkRaw 20 c1wA, mkRaw 20 c1wB] := rfl
  have hz : List.Chain' (fun a b => a.src.z = b.src.z + hQ b.src) c1wOut := by
    rw [hout]
    refine List.chain'_cons.2 ⟨?_, List.chain'_singleton _⟩
    show (mkRaw 20 c1wA).src.z = (mkRaw 20 c1wB).src.z + hQ (mkRaw 20 c1wB).src
    norm_num [mkRaw, c1wA, c1wB, baseRow, hQ]
  have hok := (claim_c1_amended c1wSt).1.2
  have hle : 0 ≤ hQ (mkRaw 20 c1wA).src := by
    norm_num [mkRaw, hQ, c1wA, baseRow]
  have hmem : mkRaw 20 c1wA ∈ c1wOut := by
    rw [hout]
    exact List.mem_cons_self _ _
  exact ⟨hz, hok.2.1 hz, hle, hok.1 _ hmem hle⟩

/-- C3.  The mp branch of set_df_structure stores
round3(pile_head - sum(selected heights)/1000) in pile_toe, and the tw and tp
branches leave pile_toe untouched, so the value is computed exactly once, by
the monopile branch. -/
theorem claim_c3 (st : OWTState) :
    (set_df_structure st "mp" =
      some ((selMP st).map (mkRaw (mpToe st)),
        { st with pile_toe := some (round3 (mpToe st)) })) ∧
    mpToe st = st.pile_head - ((selMP st).map hQ).sum / 1000 ∧
    (∀ idx, idx = "tw" ∨ idx = "tp" →
      ∀ out st2, set_df_structure st idx = some (out, st2) → st2.pile_toe = st.pile_toe) := by
  refine ⟨rfl, rfl, ?_⟩
  intro idx h out st2 heq
  rcases h with rfl | rfl
  · rw [show set_df_structure st "tw" =
        some ((selTW st).map (mkRaw st.tower_base), st) from rfl] at heq
    simp only [Option.some.injEq, Prod.mk.injEq] at heq
    rw [← heq.2]
  · rw [show set_df_structure st "tp" =
        some ((selTP st).map (mkRaw (tpAnchor st)), st) from rfl] at heq
    simp only [Option.some.injEq, Prod.mk.injEq] at heq
    rw [← heq.2]

/-- C3 (witness): the theorem applied to a concrete monopile table of one
5000 mm section under pile head -1, giving toe -6; the no-write conclusion is
instantiated for the tw branch. -/
theorem claim_c3_witness :
    set_df_structure c3St "mp" =
      some ((selMP c3St).map (mkRaw (mpToe c3St)),
        { c3St with pile_toe := some (round3 (mpToe c3St)) }) ∧
    mpToe c3St = -6 ∧
    baseSt.pile_toe = baseSt.pile_toe := by
  refine ⟨(claim_c3 c3St).1, ?_, (claim_c3 baseSt).2.2 "tw" (Or.inl rfl) _ _ rfl⟩
  rw [(claim_c3 c3St).2.1, show selMP c3St = [c3Row] from rfl]
  norm_num [hQ, c3Row, baseRow, c3St, baseSt]

/-- C8.  Reading a derived OWT attribute before its populating call emits
exactly one non-fatal warning whose message names a processing call that has
indeed not run yet, and still returns the stored attribute value; an OWTs
attribute read before process_structures warns naming process_structures and
returns the stored value.  (For full_structure read before both assembly
calls, the warning names assembly_tp_mp, the not-yet-run prerequisite.) -/
theorem claim_c8 :
    (∀ (V : Type) (st : AttrState V) (name : String),
      name ∈ ATTR_PROC ++ ATTR_SPEC → owtFlag st (owtCorrCall name) = false →
      ∃ w, owt_getattribute st name = ([w], st.vals name) ∧ owtFlag st w = false) ∧
    (∀ (V : Type) (st : OWTsAttrState V) (name : String),
      name ∈ ATTR_PROC ++ ATTR_SPEC ++ ATTR_FULL → st.init = false →
      owts_getattribute st name = (["process_structures"], st.vals name)) := by
  constructor
  · intro V st name hmem hflag
    rw [List.mem_append] at hmem
    rcases hmem with hP | hS
    · simp only [ATTR_PROC, List.mem_cons, List.not_mem_nil, or_false] at hP
      rcases hP with rfl | rfl | rfl | rfl | rfl | rfl | rfl | rfl | rfl | rfl | rfl <;>
        · have hproc : st.init_proc = false := hflag
          exact ⟨"process_structure",
            by unfold owt_getattribute; rw [if_pos ⟨by decide, hproc⟩], hproc⟩
    · simp only [ATTR_SPEC, List.mem_cons, List.not_mem_nil, or_false] at hS
      rcases hS with rfl | rfl | rfl
      · have hfull : st.init_spec_full = false := hflag
        cases hp : st.init_spec_part
        · exact ⟨"assembly_tp_mp",
            by
              unfold owt_getattribute
              rw [if_neg (fun hc => absurd hc.1 (by decide)), if_pos ⟨by decide, hp⟩],
            hp⟩
        · exact ⟨"assembly_full_structure",
            by
              unfold owt_getattribute
              rw [if_neg (fun hc => absurd hc.1 (by decide)),
                if_neg (fun hc => by simp [hp] at hc), if_pos ⟨by decide, hfull⟩],
            hfull⟩
      · have hpart : st.init_spec_part = false := hflag
        exact ⟨"assembly_tp_mp",
          by
            unfold owt_getattribute
            rw [if_neg (fun hc => absurd hc.1 (by decide)), if_pos ⟨by decide, hpart⟩],
          hpart⟩
      · have hpart : st.init_spec_part = false := hflag
        exact ⟨"assembly_tp_mp",
          by
            unfold owt_getattribute
            rw [if_neg (fun hc => absurd hc.1 (by decide)), if_pos ⟨by decide, hpart⟩],
          hpart⟩
  · intro V st name hmem hinit
    unfold owts_getattribute
    rw [if_pos ⟨hmem, hinit⟩]

/-- C8 (witness): the theorem applied to concrete unprocessed states for the
attribute tower of an OWT and substructure of an OWTs. -/
theorem claim_c8_witness :
    (∃ w, owt_getattribute c8AttrSt "tower" = ([w], c8AttrSt.vals "tower") ∧
      owtFlag c8AttrSt w = false) ∧
    owts_getattribute c8AttrSts "substructure" =
      (["process_structures"], c8AttrSts.vals "substructure") :=
  ⟨claim_c8.1 Bool c8AttrSt "tower" (by decide) rfl,
    claim_c8.2 Bool c8AttrSts "substructure" (by decide) rfl⟩

/-- C9.  OWTs.process_structures with the completed flag already set returns
immediately, leaving the whole fleet state (including every member OWT state)
unchanged and raising nothing; and any call leaves the completed flag set. -/
theorem claim_c9 (piv : ℚ) (sts : OWTsState) :
    (sts.init = true → process_structures piv sts = (sts, none)) ∧
    (process_structures piv sts).1.init = true := by
  constructor
  · intro h
    unfold process_structures
    rw [if_pos h]
  · unfold process_structures
    by_cases h : sts.init = true
    · rw [if_pos h]
      exact h
    · rw [if_neg h]
  
/-- C9 (witness): the theorem applied to a concrete completed fleet state. -/
theorem claim_c9_witness : process_structures 3 c9Sts = (c9Sts, none) :=
  (claim_c9 3 c9Sts).1 rfl

/-- C10.  In the OWT constructor, if either supplied elevation is falsy (None
or 0.0) then both elevations are taken from the subassembly-derived values,
ignoring the other supplied value; the supplied pair is used only when both
are truthy. -/
theorem claim_c10 :
    (∀ (tb ph : Option ℚ) (twb mpt : ℚ), truthy tb = false ∨ truthy ph = false →
      owt_init_elev tb ph twb mpt = (twb, mpt)) ∧
    (∀ (qtb qph twb mpt : ℚ), qtb ≠ 0 → qph ≠ 0 →
      owt_init_elev (some qtb) (some qph) twb mpt = (qtb, qph)) := by
  constructor
  · intro tb ph twb mpt h
    unfold owt_init_elev
    rw [if_pos h]
  · intro qtb qph twb mpt h1 h2
    unfold owt_init_elev
    rw [if_neg]
    · rfl
    · intro hor
      rcases hor with h | h
      · simp only [truthy, decide_eq_false_iff_not, not_not] at h
        exact h1 h
      · simp only [truthy, decide_eq_false_iff_not, not_not] at h
        exact h2 h

/-- C10 (witness): a falsy 0.0 tower base forces both derived values even
though the pile head was supplied; two truthy values are used as given. -/
theorem claim_c10_witness :
    owt_init_elev (some 0) (some 5) 20 (-1) = (20, -1) ∧
    owt_init_elev (some 2) (some 5) 20 (-1) = (2, 5) :=
  ⟨claim_c10.1 (some 0) (some 5) 20 (-1)
      (Or.inl (by simp [truthy])),
    claim_c10.2 2 5 20 (-1) (by norm_num) (by norm_num)⟩

/-- The TW lumped-mass call with add_descr raises the Description KeyError for
every state: the selected column is the lower-case description. -/
theorem plm_descr_TW (st : OWTState) :
    process_lumped_masses st "TW" true = .error (.keyError ["Description"]) := rfl

/-- The TP lumped-mass call with add_descr raises the Description KeyError
whenever the raw transition-piece table is nonempty. -/
theorem plm_descr_TP (st : OWTState) (r0 : SrcRow) (tl : List SrcRow)
    (hsa : st.tp_sub_assemblies = r0 :: tl) :
    process_lumped_masses st "TP" true = .error (.keyError ["Description"]) := by
  unfold process_lumped_masses set_df_appurtenances
  rw [hsa]
  rfl

/-- The MP lumped-mass call with add_descr raises the Description KeyError
whenever pile_toe has been computed. -/
theorem plm_descr_MP (st : OWTState) (toe : ℚ) (hpt : st.pile_toe = some toe) :
    process_lumped_masses st "MP" true = .error (.keyError ["Description"]) := by
  unfold process_lumped_masses set_df_appurtenances
  rw [hpt]
  rfl

/-- extend_dfs always raises the Description KeyError at its first
process_lumped_masses call and leaves the state unchanged. -/
theorem extend_dfs_err (piv : ℚ) (st : OWTState) :
    extend_dfs piv st = (st, some (.keyError ["Description"])) := by
  unfold extend_dfs
  rw [plm_descr_TW st]

/-- process_structure "full" completes without an exception when the raw
transition-piece table has the explicit nonempty form. -/
theorem process_structure_full_ok2 (st : OWTState) (r0 : SrcRow) (tl : List SrcRow) :
    (process_structure { st with tp_sub_assemblies := r0 :: tl } "full").2 = none := rfl

/-- process_structure "full" completes without an exception whenever the raw
transition-piece table is nonempty. -/
theorem process_structure_full_ok (st : OWTState) (r0 : SrcRow) (tl : List SrcRow)
    (hsa : st.tp_sub_assemblies = r0 :: tl) :
    (process_structure st "full").2 = none := by
  have h2 : st = { st with tp_sub_assemblies := r0 :: tl } := by
    rw [← hsa]
  rw [h2]
  exact process_structure_full_ok2 st r0 tl

/-- The per-turbine pipeline always ends in the Description KeyError when the
raw transition-piece table is nonempty. -/
theorem owt_pipeline_err (piv : ℚ) (st : OWTState) (r0 : SrcRow) (tl : List SrcRow)
    (hsa : st.tp_sub_assemblies = r0 :: tl) :
    (owt_full_pipeline piv st).2 = some (.keyError ["Description"]) := by
  unfold owt_full_pipeline
  rcases hp : process_structure st "full" with ⟨st1, e⟩
  have h2 : e = none := by
    have h3 := process_structure_full_ok st r0 tl hsa
    rw [hp] at h3
    exact h3
  subst h2
  show (extend_dfs piv st1).2 = some (.keyError ["Description"])
  rw [extend_dfs_err]

/-- C4.  With add_descr set, process_lumped_masses raises a KeyError naming
the missing Description column for each of the categories TW (always), TP
(whenever the raw tp table is nonempty) and MP (whenever pile_toe is set);
consequently extend_dfs always raises that KeyError at its first call, and
OWTs.process_structures raises it on any uncompleted fleet whose first
turbine has a nonempty raw tp table. -/
theorem claim_c4 :
    (∀ st : OWTState,
      process_lumped_masses st "TW" true = .error (.keyError ["Description"])) ∧
    (∀ (st : OWTState) (r0 : SrcRow) (tl : List SrcRow),
      st.tp_sub_assemblies = r0 :: tl →
      process_lumped_masses st "TP" true = .error (.keyError ["Description"])) ∧
    (∀ (st : OWTState) (toe : ℚ), st.pile_toe = some toe →
      process_lumped_masses st "MP" true = .error (.keyError ["Description"])) ∧
    (∀ (piv : ℚ) (st : OWTState),
      extend_dfs piv st = (st, some (.keyError ["Description"]))) ∧
    (∀ (piv : ℚ) (sts : OWTsState) (o : OWTState) (rest : List OWTState)
      (r0 : SrcRow) (tl : List SrcRow),
      sts.init = false → sts.owts = o :: rest → o.tp_sub_assemblies = r0 :: tl →
      (process_structures piv sts).2 = some (.keyError ["Description"])) := by
  refine ⟨plm_descr_TW, plm_descr_TP, plm_descr_MP, extend_dfs_err, ?_⟩
  intro piv sts o rest r0 tl hinit howts hsa
  unfold process_structures
  rw [if_neg (by rw [hinit]; exact Bool.false_ne_true)]
  show (owts_loop piv sts.owts).2.2 = some (.keyError ["Description"])
  rw [howts]
  unfold owts_loop
  rcases hq : owt_full_pipeline piv o with ⟨o1, e⟩
  have he : e = some (.keyError ["Description"]) := by
    have h3 := owt_pipeline_err piv o r0 tl hsa
    rw [hq] at h3
    exact h3
  subst he
  rfl

/-- C4 (witness): the KeyError on concrete states with a nonempty tp table, a
set pile toe, and a one-turbine fleet. -/
theorem claim_c4_witness :
    process_lumped_masses c4St "TP" true = .error (.keyError ["Description"]) ∧
    process_lumped_masses c4StMP "MP" true = .error (.keyError ["Description"]) ∧
    (process_structures 3 c4Sts).2 = some (.keyError ["Description"]) :=
  ⟨claim_c4.2.1 c4St baseRow [] rfl,
    claim_c4.2.2.1 c4StMP 0 rfl,
    claim_c4.2.2.2.2 3 c4Sts c4St [] baseRow [] rfl rfl rfl⟩

/-- C5 (amended).  When the FIRST row of the kept transition-piece portion
(the rows with depth-from strictly above the pile head, in table order) has
depth-to exactly equal to the pile head, assembly_tp_mp stores the plain
concatenation of that portion with the monopile table as the substructure:
no row is modified, in particular the boundary diameter is the source value.
(The claim as stated checks the BOTTOM row of the kept portion, but the code
reads df.index[0], the first row; the two coincide only for a single-row
kept portion under the top-down row order of the spec.) -/
theorem claim_c5_amended (piv : ℚ) (st : OWTState) (tp mp : List Can) (c0 : Can)
    (rest : List Can)
    (htp : st.transition_piece = some tp) (hmp : st.monopile = some mp)
    (hkept : tp.filter (fun c => st.pile_head < c.depth_from) = c0 :: rest)
    (hbolt : c0.depth_to = st.pile_head) :
    (assembly_tp_mp piv st).1.substructure = some ((c0 :: rest) ++ mp) := by
  unfold assembly_tp_mp
  simp only [htp, hmp, hkept]
  rw [if_neg (fun hne => hne hbolt)]
  rcases hcm : can_modification piv (tp.filter (fun c => c.depth_to < st.pile_head))
      st.pile_head "top" with _ | sk
  · rfl
  · rfl

/-- C5 (counterexample).  A two-row kept portion whose bottom row is bolted
exactly at the pile head (depth-to 4 = pile head) still goes through
can_modification, because the code checks the first row: the boundary row
diameter changes from 1 to 2, so the claimed plain concatenation with an
unchanged boundary diameter is false. -/
theorem claim_c5_counterexample :
    ([c5r1, c5r2, c5r3].filter (fun c => c5St.pile_head < c.depth_from) = [c5r1, c5r2]) ∧
    c5r2.depth_to = c5St.pile_head ∧
    c5r2.diam_to = 1 ∧
    ((assembly_tp_mp 3 c5St).1.substructure.getD []).map Can.diam_to = [3, 2, 5] ∧
    ¬((2 : ℚ) = 1) := by
  refine ⟨rfl, rfl, rfl, rfl, by norm_num⟩

/-- C5 (witness): the amended theorem applied to a single-row kept portion
bolted at the pile head; the substructure is the untouched concatenation. -/
theorem claim_c5_witness :
    (assembly_tp_mp 3 c5wSt).1.substructure = some ([c5w1] ++ [c5m1]) :=
  claim_c5_amended 3 c5wSt [c5w1, c5r3] [c5m1] c5w1 [] rfl rfl rfl rfl

/-- C2 (code evaluation at the failing input).  For a transition-piece can
with depth range [0, 10], diameters 1 (bottom) to 2 (top) and a cut at
elevation 4, the code sets the boundary diameter to 2 - the diameter of the
depth-from end - whereas linear interpolation inside the original depth range,
as the claim and the spec describe, gives 7/5.  The cause: can_modification
overwrites the boundary depth before reading the elevation pair and then
hands numpy.interp a DECREASING coordinate pair, so the documented clamp rule
(x below the first coordinate returns the first value) fires instead of any
interpolation. -/
theorem claim_c2_eval :
    ((assembly_tp_mp 3 c2St).1.substructure.getD []).map Can.diam_to = [2, 5] ∧
    c2tp.diam_to + (c2tp.diam_from - c2tp.diam_to) *
      ((c2St.pile_head - c2tp.depth_to) / (c2tp.depth_from - c2tp.depth_to)) = 7 / 5 ∧
    ¬((2 : ℚ) = 7 / 5) := by
  refine ⟨rfl, ?_, by norm_num⟩
  show (1 : ℚ) + (2 - 1) * ((4 - 0) / (10 - 0)) = 7 / 5
  norm_num

/-- C6 (amended).  process_structure_geometry is set_df_structure followed by
the per-row column computations, in which the OD component BEFORE the slash
becomes Diameter to [m] and the component AFTER the slash becomes
Diameter from [m] (the opposite of the claimed assignment), both converted
mm to m; a slash-free OD is used for both ends; rho [t/m] is raw mass over
raw height; the depth columns are passed through unchanged. -/
theorem claim_c6_amended (st : OWTState) (idx : String)
    (h : idx = "tw" ∨ idx = "tp" ∨ idx = "mp") :
    ∃ raws st2, set_df_structure st idx = some (raws, st2) ∧
      process_structure_geometry st idx = some (raws.map toCan, st2) ∧
      (∀ r : RawSection,
        (toCan r).diam_to = strToQ (odBefore r.src.od) / 1000 ∧
        (toCan r).diam_from = strToQ (odAfter r.src.od) / 1000 ∧
        (toCan r).rho = r.src.mass / hQ r.src ∧
        (toCan r).depth_from = r.depth_from ∧ (toCan r).depth_to = r.depth_to) ∧
      (∀ s : String, (breakSlash s.toList).2 = none → odBefore s = odAfter s) := by
  have hfields : ∀ r : RawSection,
      (toCan r).diam_to = strToQ (odBefore r.src.od) / 1000 ∧
      (toCan r).diam_from = strToQ (odAfter r.src.od) / 1000 ∧
      (toCan r).rho = r.src.mass / hQ r.src ∧
      (toCan r).depth_from = r.depth_from ∧ (toCan r).depth_to = r.depth_to :=
    fun r => ⟨rfl, rfl, rfl, rfl, rfl⟩
  have hnoslash : ∀ s : String, (breakSlash s.toList).2 = none → odBefore s = odAfter s := by
    intro s hs
    unfold odAfter
    rw [hs]
    rfl
  rcases h with rfl | rfl | rfl
  · exact ⟨_, _, rfl, rfl, hfields, hnoslash⟩
  · exact ⟨_, _, rfl, rfl, hfields, hnoslash⟩
  · exact ⟨_, _, rfl, rfl, hfields, hnoslash⟩

/-- C6 (counterexample).  With OD string 100/200 the built can has
Diameter from 0.2 m (the value AFTER the slash) and Diameter to 0.1 m,
refuting the claimed assignment of the before-slash value to Diameter
from. -/
theorem claim_c6_counterexample :
    (process_structure_geometry c6St "tw").map
        (fun p => p.1.map (fun c => (c.diam_from, c.diam_to))) =
      some [((1 : ℚ) / 5, (1 : ℚ) / 10)] ∧
    ¬((1 : ℚ) / 5 = 1 / 10) := by
  constructor
  · have h1 : (process_structure_geometry c6St "tw").map
        (fun p => p.1.map (fun c => (c.diam_from, c.diam_to))) =
        some [(strToQ (odAfter "100/200") / 1000, strToQ (odBefore "100/200") / 1000)] := rfl
    have h2 : strToQ "200" = 200 := by
      unfold strToQ
      rw [show (("200".toList.foldl (fun a c => a * 10 + (c.toNat - 48)) 0 : ℕ)) = 200
        from by decide]
      norm_num
    have h3 : strToQ "100" = 100 := by
      unfold strToQ
      rw [show (("100".toList.foldl (fun a c => a * 10 + (c.toNat - 48)) 0 : ℕ)) = 100
        from by decide]
      norm_num
    rw [h1, show odAfter "100/200" = "200" from rfl,
      show odBefore "100/200" = "100" from rfl, h2, h3]
    norm_num
  · norm_num

/-- C6 (witness): the amended theorem applied to the base state with category
tw; the field equation is instantiated at a concrete raw section and the
no-slash clause at the string 5000. -/
theorem claim_c6_witness :
    (toCan { src := c6Row, depth_from := 0, depth_to := 0 }).diam_to =
      strToQ (odBefore c6Row.od) / 1000 ∧
    odBefore "5000" = odAfter "5000" := by
  obtain ⟨raws, st2, h1, h2, hf, hns⟩ := claim_c6_amended baseSt "tw" (Or.inl rfl)
  exact ⟨(hf _).1, hns "5000" (by decide)⟩

/-- C7 (amended).  set_df_appurtenances anchors Z at the tower base for TW,
at tower_base minus the z offset of the first raw tp row for TP, and at the
stored pile toe for MP; the height-is-missing filter is applied by the TP and
MP branches only - the TW branch selects EVERY row whose label contains TW,
with no height filter (refuting the claimed filter for TW); and
process_lumped_masses converts x, y to metres and mass to tonnes on the
selected rows. -/
theorem claim_c7_amended :
    (∀ (st : OWTState) (ad : Bool),
      set_df_appurtenances st "TW" ad = .ok
        { cols := lmBaseCols ad ++ ["Z [mLAT]"]
          rows := (st.tower_sub_assemblies.filter (fun r => strContains r.label "TW")).map
            (fun r => (r, st.tower_base + r.z / 1000)) }) ∧
    (∀ (st : OWTState) (ad : Bool) (r0 : SrcRow) (tl : List SrcRow),
      st.tp_sub_assemblies = r0 :: tl →
      set_df_appurtenances st "TP" ad = .ok
        { cols := lmBaseCols ad ++ ["height", "Z [mLAT]"]
          rows := ((st.tp_sub_assemblies.filter (fun r => strContains r.label "TP")).filter
              (fun r => r.height.isNone)).map
            (fun r => (r, st.tower_base - r0.z / 1000 + r.z / 1000)) }) ∧
    (∀ (st : OWTState) (ad : Bool) (toe : ℚ), st.pile_toe = some toe →
      set_df_appurtenances st "MP" ad = .ok
        { cols := lmBaseCols ad ++ ["height", "Z [mLAT]"]
          rows := ((st.mp_sub_assemblies.filter (fun r => strContains r.label "MP")).filter
              (fun r => r.height.isNone)).map (fun r => (r, toe + r.z / 1000)) }) ∧
    (∀ (st : OWTState) (idx : String) (df : LMDF),
      idx = "TW" ∨ idx = "TP" ∨ idx = "MP" →
      set_df_appurtenances st idx false = .ok df →
      process_lumped_masses st idx false = .ok
        (df.rows.map (fun p =>
          { x_m := p.1.x / 1000, y_m := p.1.y / 1000, z_lat := p.2
            mass_t := p.1.mass / 1000, description := p.1.description }),
          lmReqCols false)) := by
  refine ⟨fun st ad => rfl, ?_, ?_, ?_⟩
  · intro st ad r0 tl hsa
    unfold set_df_appurtenances
    rw [hsa]
    rfl
  · intro st ad toe hpt
    unfold set_df_appurtenances
    rw [hpt]
    rfl
  · intro st idx df hidx h
    rcases hidx with rfl | rfl | rfl
    · unfold process_lumped_masses
      rw [h]
      unfold set_df_appurtenances at h
      rw [if_pos rfl] at h
      simp only [Except.ok.injEq] at h
      rw [← h]
      rfl
    · unfold process_lumped_masses
      rw [h]
      unfold set_df_appurtenances at h
      rcases hsa : st.tp_sub_assemblies with _ | ⟨r0, tl⟩ <;> rw [hsa] at h
      · simp at h
      · rw [if_neg (by decide), if_pos rfl] at h
        simp only [Except.ok.injEq] at h
        rw [← h]
        rfl
    · unfold process_lumped_masses
      rw [h]
      unfold set_df_appurtenances at h
      rcases hpt : st.pile_toe with _ | toe <;> rw [hpt] at h
      · simp at h
      · rw [if_neg (by decide), if_neg (by decide), if_pos rfl] at h
        simp only [Except.ok.injEq] at h
        rw [← h]
        rfl

/-- C7 (counterexample).  A TW-labelled row with a PRESENT height (500 mm) is
selected by set_df_appurtenances for category TW, refuting the claim that
only rows with an absent height are selected. -/
theorem claim_c7_counterexample :
    (set_df_appurtenances c7St "TW" false).map
        (fun df => df.rows.map (fun p => p.1.height)) =
      .ok [some 500] ∧
    ¬(some (500 : ℚ) = (none : Option ℚ)) := by
  exact ⟨rfl, by simp⟩

/-- C7 (witness): the amended theorem applied to concrete states - the TP
anchor on a one-row tp table, and the full TW lumped-mass conversion. -/
theorem claim_c7_witness :
    set_df_appurtenances c4St "TP" false = .ok
      { cols := lmBaseCols false ++ ["height", "Z [mLAT]"]
        rows := ((c4St.tp_sub_assemblies.filter (fun r => strContains r.label "TP")).filter
            (fun r => r.height.isNone)).map
          (fun r => (r, c4St.tower_base - baseRow.z / 1000 + r.z / 1000)) } ∧
    process_lumped_masses c7St "TW" false = .ok
      ((((c7St.tower_sub_assemblies.filter (fun r => strContains r.label "TW")).map
          (fun r => (r, c7St.tower_base + r.z / 1000))).map (fun p =>
        { x_m := p.1.x / 1000, y_m := p.1.y / 1000, z_lat := p.2
          mass_t := p.1.mass / 1000, description := p.1.description })),
        lmReqCols false) := by
  constructor
  · exact claim_c7_amended.2.1 c4St false baseRow [] rfl
  · exact claim_c7_amended.2.2.2 c7St "TW" _ (Or.inl rfl) (claim_c7_amended.1 c7St false)
